import Mathlib

/-!
Shallow embedding of the server registration state machine and connection
lifecycle manager of the Anjay LwM2M client core (files `src/utils_core.c`,
`src/servers_utils.c`, `src/servers/utils_core.c` and
`modules/server/src/server_transaction.c`).

Conventions of the embedding:

* `avs_time_duration_t` / `avs_time_real_t` values are modelled as
  `Option Int`, the integer being the total length in nanoseconds;
  `none` stands for `AVS_TIME_DURATION_INVALID` / `AVS_TIME_REAL_INVALID`.
  The `seconds` field of a normalized `avs_time_duration_t` is the floor
  of the total length divided by 10^9 (negative durations carry a
  non-negative nanosecond part in avs_commons), and the INVALID sentinel
  has `seconds = 0`.
* C strings are modelled as `List Char` (the characters before the NUL
  terminator); `strchr` returns the suffix starting at the first
  occurrence of the sought character.
* Functions of external collaborators (the avs_commons time library, the
  scheduler, the CoAP transport) are modelled either by their documented
  arithmetic (time), or by passing their outcome as an explicit argument,
  or, where noted, from the specification text.
-/

/-- Nanoseconds in a second, as used by avs_commons time arithmetic. -/
def NS_IN_S : Int := 1000000000

/-- avs_time_duration_less: strict comparison, false when either argument
is INVALID (this directionality is exactly what
`_anjay_server_registration_expired` relies on). -/
def avs_time_duration_less (a b : Option Int) : Bool :=
  match a, b with
  | some x, some y => x < y
  | _, _ => false

/-- avs_time_duration_diff: difference of two durations, INVALID when
either argument is INVALID. -/
def avs_time_duration_diff (a b : Option Int) : Option Int :=
  match a, b with
  | some x, some y => some (x - y)
  | _, _ => none

/-- avs_time_duration_div: division of a duration by an integer scalar;
for a valid non-negative dividend and positive divisor this is floor
division of the total nanosecond count. -/
def avs_time_duration_div (t : Option Int) (divisor : Int) : Option Int :=
  match t with
  | some x => if divisor = 0 then none else some (x / divisor)
  | none => none

/-- avs_time_duration_from_scalar(s, AVS_TIME_S): a whole number of
seconds as a duration. -/
def avs_time_duration_from_scalar_s (s : Int) : Option Int :=
  some (s * NS_IN_S)

/-- The `seconds` field of a normalized `avs_time_duration_t`: floor of
the nanosecond total divided by 10^9; the INVALID sentinel
`AVS_TIME_DURATION_INVALID` is `{ .seconds = 0, .nanoseconds = -1 }`,
so its `seconds` field is 0. -/
def duration_seconds : Option Int → Int
  | some ns => ns / NS_IN_S
  | none => 0

/-- Modelled from the spec: `_anjay_register_time_remaining` (interface,
not part of the sources under verification) returns the remaining time
until `expire_time`, i.e. the difference between the absolute
`expire_time` and the current time; an Invalid `expire_time` yields an
INVALID duration. -/
def register_time_remaining (expire_time : Option Int) (now : Int) : Option Int :=
  match expire_time with
  | some t => some (t - now)
  | none => none

/-- Source `_anjay_server_registration_expired` (servers_utils.c): the
registration is expired unless strictly positive time remains; the
comparison direction makes an INVALID remaining time count as expired. -/
def anjay_server_registration_expired (expire_time : Option Int) (now : Int) : Bool :=
  !(avs_time_duration_less (some 0) (register_time_remaining expire_time now))

/-- Source `anjay_connection_type_t`. -/
inductive AnjayConnectionType where
  | UDP
  | SMS
  | UNSET
deriving DecidableEq, Repr

/-- Source `anjay_server_connection_mode_t`. -/
inductive AnjayServerConnectionMode where
  | DISABLED
  | ONLINE
  | QUEUE
deriving DecidableEq, Repr

/-- C `strchr`: the suffix of the string starting at the first occurrence
of the sought character, or `none` when the character does not occur. -/
def strchr (s : List Char) (c : Char) : Option (List Char) :=
  match s with
  | [] => none
  | a :: rest => if a = c then some (a :: rest) else strchr rest c

/-- The character one past a string position: `ptr[1]` in C reads the NUL
terminator (modelled as `Char.ofNat 0`) when the suffix has length 1. -/
def char_after (suffix : List Char) : Char :=
  (suffix.drop 1).headD (Char.ofNat 0)

/-- Source `_anjay_get_connection_mode` (servers_utils.c): picks the designator
letter of the transport, finds its first occurrence in the binding-mode
string with `strchr`, and classifies: absent = DISABLED, present followed
by a Q = QUEUE, present otherwise = ONLINE. -/
def anjay_get_connection_mode (binding_mode : List Char)
    (conn_type : AnjayConnectionType) : AnjayServerConnectionMode :=
  let scan (type_letter : Char) : AnjayServerConnectionMode :=
    match strchr binding_mode type_letter with
    | none => .DISABLED
    | some suffix => if char_after suffix = 'Q' then .QUEUE else .ONLINE
  match conn_type with
  | .UDP => scan 'U'
  | .SMS => scan 'S'
  | .UNSET => .DISABLED

/-- Source `anjay_binding_mode_valid` (utils_core.c): membership in the fixed
array VALID_BINDINGS. -/
def anjay_binding_mode_valid (binding_mode : String) : Bool :=
  ["U", "UQ", "S", "SQ", "US", "UQS"].contains binding_mode

/-- Source `binding_mode_from_connection_modes` (servers_utils.c): appends "U"
or "UQ" for the UDP mode and then "S" or "SQ" for the SMS mode into an
`anjay_binding_mode_t` buffer (large enough for every such combination),
then fails unless the result is a valid binding mode. `none` models the
-1 error return. -/
def binding_mode_from_connection_modes (udp_mode sms_mode : AnjayServerConnectionMode) :
    Option String :=
  let s :=
    (match udp_mode with
     | .ONLINE => "U"
     | .QUEUE => "UQ"
     | .DISABLED => "")
    ++
    (match sms_mode with
     | .ONLINE => "S"
     | .QUEUE => "SQ"
     | .DISABLED => "")
  if anjay_binding_mode_valid s then some s else none

example : binding_mode_from_connection_modes
    (anjay_get_connection_mode "UQS".toList .UDP)
    (anjay_get_connection_mode "UQS".toList .SMS) = some "UQS" := by decide

example : anjay_get_connection_mode "UUQ".toList .UDP = .ONLINE := by decide

/-! ### Update scheduler timing (servers/utils_core.c) -/

/-- ANJAY_UPDATE_INTERVAL_MARGIN_FACTOR (servers/utils_core.c). -/
def ANJAY_UPDATE_INTERVAL_MARGIN_FACTOR : Int := 2

/-- ANJAY_MIN_UPDATE_INTERVAL_S (servers/utils_core.c). -/
def ANJAY_MIN_UPDATE_INTERVAL_S : Int := 1

/-- Source `get_server_update_interval_margin` (servers/utils_core.c): the
duration reserved before lifetime expiry for performing the Update.
`half_lifetime` is the registration lifetime divided by
ANJAY_UPDATE_INTERVAL_MARGIN_FACTOR = 2; the margin is the smaller of
`half_lifetime` and the transport's `max_transmit_wait` (an external
CoAP transmission parameter, passed here as an argument). -/
def get_server_update_interval_margin (lifetime_s : Int)
    (max_transmit_wait : Option Int) : Option Int :=
  let half_lifetime :=
    avs_time_duration_div (avs_time_duration_from_scalar_s lifetime_s)
      ANJAY_UPDATE_INTERVAL_MARGIN_FACTOR
  if avs_time_duration_less half_lifetime max_transmit_wait then
    half_lifetime
  else
    max_transmit_wait

/-- Source `schedule_next_update` (servers/utils_core.c), reduced to the delay it
passes to `schedule_update`: the remaining registration time minus the
update-interval margin, floored to ANJAY_MIN_UPDATE_INTERVAL_S = 1 second
whenever its `seconds` field is below that minimum. -/
def schedule_next_update_delay (remaining margin : Option Int) : Option Int :=
  let rem := avs_time_duration_diff remaining margin
  if duration_seconds rem < ANJAY_MIN_UPDATE_INTERVAL_S then
    avs_time_duration_from_scalar_s ANJAY_MIN_UPDATE_INTERVAL_S
  else
    rem

example : get_server_update_interval_margin 60 (some (5 * NS_IN_S)) =
    some (5 * NS_IN_S) := by decide
example : get_server_update_interval_margin 60 (some (20 * NS_IN_S)) =
    some (20 * NS_IN_S) := by decide

/-! ### Registration protocol driver (servers/utils_core.c) -/

/-- The state of one active server entry that the registration driver
reads and writes: the primary connection type, which connection types
currently have an online socket (socket handles are modelled as `Nat`),
and the registration expiry timestamp (`none` = AVS_TIME_REAL_INVALID). -/
structure ServerInfo where
  primary_conn_type : AnjayConnectionType
  online_socket : AnjayConnectionType → Option Nat
  expire_time : Option Int

/-- Observable calls the driver makes into external collaborators, in
order. -/
inductive DriverEffect where
  | suspendConn (conn_type : AnjayConnectionType)
  | scheduleReconnect
  | updateExchange
  | registerExchange
  | setupPrimary
  | bootstrapNotify
deriving DecidableEq, Repr

/-- Result codes of the `_anjay_update_registration` network exchange as
distinguished by `registration_update_with_ctx`: 0,
ANJAY_REGISTRATION_UPDATE_REJECTED, AVS_COAP_CTX_ERR_NETWORK, or any
other error. -/
inductive UpdateExchangeStatus where
  | ok
  | rejected
  | network_err
  | other_err
deriving DecidableEq, Repr

/-- Result codes of the `_anjay_register` exchange as distinguished by
`ensure_valid_registration_with_ctx`: 0, ANJAY_ERR_FORBIDDEN, or any
other error. -/
inductive RegisterExchangeStatus where
  | ok
  | forbidden
  | other_err
deriving DecidableEq, Repr

/-- Source `anjay_update_result_t`. -/
inductive AnjayUpdateResult where
  | SUCCESS
  | NEEDS_REGISTRATION
  | FAILED
deriving DecidableEq, Repr

/-- Source `anjay_registration_result_t`. -/
inductive AnjayRegistrationResult where
  | SUCCESS
  | FORBIDDEN
  | FAILED
deriving DecidableEq, Repr

/-- Source `_anjay_connection_suspend`: takes the socket of the designated
connection offline (the UNSET sentinel suspends all connections of the
server); the socket handle itself and the non-transient state are kept. -/
def anjay_connection_suspend (s : ServerInfo) (conn_type : AnjayConnectionType) :
    ServerInfo :=
  { s with
    online_socket := fun c =>
      if conn_type = .UNSET || c = conn_type then none else s.online_socket c }

/-- Source `_anjay_server_primary_connection_valid` (servers/utils_core.c): the
primary connection type is set and its socket is online. -/
def anjay_server_primary_connection_valid (s : ServerInfo) : Bool :=
  s.primary_conn_type != .UNSET && (s.online_socket s.primary_conn_type).isSome

/-- Source `registration_update_with_ctx` (servers/utils_core.c). The outcome of
the `_anjay_update_registration` exchange is the `retval` argument.
Returns the `anjay_update_result_t`, the updated server state, and the
trace of external calls (the Update exchange itself, then possibly a
connection suspension). On rejection the expiry is invalidated; on a
network error the primary connection is suspended (deliberately not
`_anjay_schedule_server_reconnect`, to preserve scheduler backoff). -/
def registration_update_with_ctx (retval : UpdateExchangeStatus) (s : ServerInfo) :
    AnjayUpdateResult × ServerInfo × List DriverEffect :=
  match retval with
  | .ok => (.SUCCESS, s, [.updateExchange])
  | .rejected =>
      (.NEEDS_REGISTRATION, { s with expire_time := none }, [.updateExchange])
  | .network_err =>
      (.FAILED, anjay_connection_suspend s s.primary_conn_type,
       [.updateExchange, .suspendConn s.primary_conn_type])
  | .other_err => (.FAILED, s, [.updateExchange])

/-- The classification phase of `ensure_valid_registration_with_ctx`
(servers/utils_core.c): no valid primary connection forces
NEEDS_REGISTRATION and invalidates the expiry; an expired registration
forces NEEDS_REGISTRATION; an unchanged data model yields SUCCESS with
no network traffic; otherwise the Update exchange is attempted. The
outcomes of the external calls `_anjay_needs_registration_update` and
`_anjay_update_registration` are the `needs_update` and `update_status`
arguments; `now` is the current time. -/
def ensure_valid_registration_classify (needs_update : Bool)
    (update_status : UpdateExchangeStatus) (now : Int) (s : ServerInfo) :
    AnjayUpdateResult × ServerInfo × List DriverEffect :=
  if !anjay_server_primary_connection_valid s then
    (.NEEDS_REGISTRATION, { s with expire_time := none }, [])
  else if anjay_server_registration_expired s.expire_time now then
    (.NEEDS_REGISTRATION, s, [])
  else if !needs_update then
    (.SUCCESS, s, [])
  else
    registration_update_with_ctx update_status s

/-- Source `ensure_valid_registration_with_ctx` (servers/utils_core.c): performs
the classification above, then on NEEDS_REGISTRATION selects and connects
a primary transport if none is valid (`setup_ok` is the outcome of the
external `_anjay_server_setup_primary_connection`, `setup_state` the
server state it leaves behind on success) and performs the Register
exchange (outcome `register_status`); a connect failure aborts the
attempt before any Register exchange. A successful Register triggers the
best-effort bootstrap notification hook. -/
def ensure_valid_registration_with_ctx (needs_update : Bool)
    (update_status : UpdateExchangeStatus) (setup_ok : Bool)
    (setup_state : ServerInfo) (register_status : RegisterExchangeStatus)
    (now : Int) (s : ServerInfo) :
    AnjayRegistrationResult × ServerInfo × List DriverEffect :=
  match ensure_valid_registration_classify needs_update update_status now s with
  | (.SUCCESS, s1, eff1) => (.SUCCESS, s1, eff1)
  | (.FAILED, s1, eff1) => (.FAILED, s1, eff1)
  | (.NEEDS_REGISTRATION, s1, eff1) =>
      if anjay_server_primary_connection_valid s1 then
        register_step register_status s1 eff1
      else if setup_ok then
        register_step register_status setup_state (eff1 ++ [.setupPrimary])
      else
        (.FAILED, s1, eff1 ++ [.setupPrimary])
where
  /-- The `_anjay_register` part of the NEEDS_REGISTRATION branch. -/
  register_step (register_status : RegisterExchangeStatus) (s1 : ServerInfo)
      (eff1 : List DriverEffect) :
      AnjayRegistrationResult × ServerInfo × List DriverEffect :=
    match register_status with
    | .forbidden => (.FORBIDDEN, s1, eff1 ++ [.registerExchange])
    | .other_err => (.FAILED, s1, eff1 ++ [.registerExchange])
    | .ok => (.SUCCESS, s1, eff1 ++ [.registerExchange, .bootstrapNotify])

/-- Observable calls `_anjay_server_deregister` makes on the server
stream. -/
inductive StreamEffect where
  | bindStream
  | sendDeregister
  | releaseStream
deriving DecidableEq, Repr

/-- Source `_anjay_server_deregister` (servers/utils_core.c): with an UNSET
primary transport the stream is never bound and the whole operation is a
logged no-op returning 0; a failed `_anjay_bind_server_stream` (outcome
argument `bind_ok`) likewise returns 0 after the bind attempt; otherwise
the De-Register exchange runs (its result is `dereg_retval`), the stream
is released unconditionally afterwards, and the exchange result is
returned. -/
def anjay_server_deregister (bind_ok : Bool) (dereg_retval : Int)
    (s : ServerInfo) : Int × List StreamEffect :=
  if s.primary_conn_type = .UNSET then
    (0, [])
  else if !bind_ok then
    (0, [.bindStream])
  else
    (dereg_retval, [.bindStream, .sendDeregister, .releaseStream])

/-! ### Server object validation (modules/server/src/server_transaction.c) -/

/-- ANJAY_ERR_BAD_REQUEST = -ANJAY_COAP_STATUS(4, 0) = -(4 << 5). -/
def ANJAY_ERR_BAD_REQUEST : Int := -128

/-- One `server_instance_t` as read by `validate_instance`: presence
flags for the mandatory resources and the values of the resources the
validator inspects. A missing Binding resource is the NULL
`data.binding` pointer, modelled as `none`. -/
structure server_instance where
  iid : Nat
  has_ssid : Bool
  ssid : Nat
  binding : Option String
  has_lifetime : Bool
  lifetime : Int
  has_notification_storing : Bool
  default_max_period : Int
deriving DecidableEq, Repr

/-- Source `validate_instance` (server_transaction.c): rejects a missing SSID,
Binding, Lifetime or Notification-Storing resource, a non-positive
Lifetime, a zero Default Max Period, and a Binding string outside the
valid set; returns 0 when all checks pass and -1 otherwise. -/
def validate_instance (it : server_instance) : Int :=
  if !it.has_ssid then -1
  else if it.binding.isNone then -1
  else if !it.has_lifetime then -1
  else if !it.has_notification_storing then -1
  else if it.lifetime ≤ 0 then -1
  else if it.default_max_period = 0 then -1
  else if !anjay_binding_mode_valid (it.binding.getD "") then -1
  else 0

/-- The first loop of `_anjay_serv_object_validate`: walk the instance
list, stop with ANJAY_ERR_BAD_REQUEST at the first invalid instance,
and collect the SSIDs seen so far (AVS_LIST_INSERT_NEW prepends, so the
collected list is in reverse visiting order). The allocation-failure
path (ANJAY_ERR_INTERNAL) is not modelled. -/
def serv_validate_collect_ssids : List server_instance → Int × List Nat
  | [] => (0, [])
  | it :: rest =>
      if validate_instance it ≠ 0 then
        (ANJAY_ERR_BAD_REQUEST, [])
      else
        ((serv_validate_collect_ssids rest).1,
         (serv_validate_collect_ssids rest).2 ++ [it.ssid])

/-- The adjacent-duplicate scan of `_anjay_serv_object_validate`, run on
the sorted SSID list. -/
def has_adjacent_duplicate : List Nat → Bool
  | a :: b :: rest => a = b || has_adjacent_duplicate (b :: rest)
  | _ => false

/-- Source `_anjay_serv_object_validate` (server_transaction.c): an empty list
validates trivially; otherwise every instance is validated in order and,
when all pass, the collected SSID list is sorted ascending
(AVS_LIST_SORT with `ssid_cmp`; over plain numeric keys any ascending
sort produces the same list, modelled with insertion sort) and scanned
for adjacent duplicates, which yield ANJAY_ERR_BAD_REQUEST. -/
def anjay_serv_object_validate (instances : List server_instance) : Int :=
  if instances.isEmpty then 0
  else if (serv_validate_collect_ssids instances).1 ≠ 0 then
    (serv_validate_collect_ssids instances).1
  else if has_adjacent_duplicate
      (List.insertionSort (· ≤ ·) (serv_validate_collect_ssids instances).2) then
    ANJAY_ERR_BAD_REQUEST
  else 0

/-! ### Update job scheduling state (servers/utils_core.c) -/

/-- The slice of scheduler and server state that the Update
(re)scheduling operations touch: the handles of this server's jobs
currently pending in the external scheduler, the server's
`next_action_handle` (none = NULL), and a counter producing fresh
handles. -/
structure SchedState where
  pending : List Nat
  next_action_handle : Option Nat
  fresh : Nat
deriving DecidableEq, Repr

/-- Source `_anjay_sched_del`: cancels the job designated by the handle and
resets the handle to NULL; cancelling a NULL handle is a no-op. -/
def anjay_sched_del (st : SchedState) : SchedState :=
  match st.next_action_handle with
  | none => st
  | some h =>
      { st with pending := st.pending.erase h, next_action_handle := none }

/-- Modelled from the spec: `_anjay_servers_schedule_first_retryable` /
`_anjay_servers_schedule_next_retryable` (servers_internal, not among the
sources under verification) submit one job to the external scheduler
after the given delay and store the resulting handle in the server's
exclusively-owned `next_action_handle`. -/
def servers_schedule_retryable (delay : Option Int) (st : SchedState) : SchedState :=
  let _ := delay
  { pending := st.fresh :: st.pending,
    next_action_handle := some st.fresh,
    fresh := st.fresh + 1 }

/-- Source `_anjay_server_reschedule_update_job` (servers/utils_core.c): deletes
the previously pending job, then schedules the next Update after the
computed next-update delay. -/
def anjay_server_reschedule_update_job (delay : Option Int) (st : SchedState) :
    SchedState :=
  servers_schedule_retryable delay (anjay_sched_del st)

/-- Source `reschedule_update_for_server` (servers/utils_core.c): deletes the
previously pending job, then schedules an immediate Update
(AVS_TIME_DURATION_ZERO delay). -/
def reschedule_update_for_server (st : SchedState) : SchedState :=
  servers_schedule_retryable (some 0) (anjay_sched_del st)

/-! ### Registry lookup by socket (servers_utils.c) -/

/-- The per-transport connection state relevant to socket lookup: the
socket handle (none = NULL, i.e. no socket created) and whether that
socket is currently online (a created-but-suspended socket is offline). -/
structure ConnectionState where
  socket : Option Nat
  online : Bool
deriving DecidableEq, Repr

/-- Modelled from the spec: `_anjay_connection_get_online_socket`
(servers module, not among the sources under verification) returns the
connection's socket only while the connection is online, and NULL for an
absent or suspended/offline socket. -/
def anjay_connection_get_online_socket (c : ConnectionState) : Option Nat :=
  if c.online then c.socket else none

/-- One registry entry as seen by `_anjay_servers_find_by_udp_socket`:
its activation state and its UDP connection state. -/
structure RegistryServer where
  active : Bool
  udp : ConnectionState
deriving DecidableEq, Repr

/-- Source `_anjay_servers_find_by_udp_socket` (servers_utils.c):
`_anjay_servers_foreach_active` visits active servers in order;
`find_by_udp_socket_clb` breaks at the first server whose online UDP
socket equals the argument (which is asserted non-NULL, hence the plain
`Nat` handle); no match leaves the `out` argument NULL. -/
def anjay_servers_find_by_udp_socket (servers : List RegistryServer)
    (socket : Nat) : Option RegistryServer :=
  (servers.filter (·.active)).find?
    (fun server => anjay_connection_get_online_socket server.udp = some socket)

/-! ### Claims -/

/-- C2: for every binding-mode string s in the valid set
{U, UQ, S, SQ, US, UQS}, deriving the UDP and SMS connection modes from s
and rebuilding a binding-mode string from that pair round-trips to s. -/
theorem binding_mode_round_trip :
    ∀ s ∈ ["U", "UQ", "S", "SQ", "US", "UQS"],
      binding_mode_from_connection_modes
        (anjay_get_connection_mode s.toList .UDP)
        (anjay_get_connection_mode s.toList .SMS) = some s := by
  decide

theorem binding_mode_round_trip_witness :
    "UQS" ∈ ["U", "UQ", "S", "SQ", "US", "UQS"]
    ∧ binding_mode_from_connection_modes
        (anjay_get_connection_mode "UQS".toList .UDP)
        (anjay_get_connection_mode "UQS".toList .SMS) = some "UQS" :=
  ⟨by decide, binding_mode_round_trip "UQS" (by decide)⟩

/-- C3 counterexample: in the string "UUQ" the letter 'U' does occur
immediately followed by 'Q' (at index 1), yet `_anjay_get_connection_mode`
returns ONLINE, not QUEUE: the code only inspects the first occurrence
found by `strchr`. -/
theorem connection_mode_second_occurrence_cex :
    "UUQ".toList[1]? = some 'U'
    ∧ "UUQ".toList[2]? = some 'Q'
    ∧ anjay_get_connection_mode "UUQ".toList .UDP = .ONLINE
    ∧ anjay_get_connection_mode "UUQ".toList .UDP ≠ .QUEUE := by
  decide

/-- C4: an expiry time in the past (remaining time ≤ 0) is expired, the
Invalid expiry sentinel is expired (never treated as infinite), and a
strictly-future expiry is not expired. -/
theorem registration_expired_cases (t now : Int) :
    anjay_server_registration_expired none now = true
    ∧ (anjay_server_registration_expired (some t) now = true ↔ t ≤ now)
    ∧ (anjay_server_registration_expired (some t) now = false ↔ now < t) := by
  refine ⟨rfl, ?_, ?_⟩ <;>
    simp [anjay_server_registration_expired, register_time_remaining,
      avs_time_duration_less]

/-- C1 counterexample: with lifetime 60 s and max_transmit_wait 20 s the
code computes margin = min(60/2, 20) = 20 s, which exceeds
lifetime/4 = 15 s, and with full remaining lifetime the scheduled delay
is 40 s rather than the 45 s the claimed min(lifetime/4, ...) margin
would give. -/
theorem update_margin_exceeds_quarter_lifetime_cex :
    get_server_update_interval_margin 60 (some (20 * NS_IN_S)) =
        some (20 * NS_IN_S)
    ∧ ¬ (20 * NS_IN_S ≤ 60 * NS_IN_S / 4)
    ∧ schedule_next_update_delay (some (60 * NS_IN_S))
        (get_server_update_interval_margin 60 (some (20 * NS_IN_S))) =
        some (40 * NS_IN_S)
    ∧ 40 * NS_IN_S ≠ 60 * NS_IN_S - 60 * NS_IN_S / 4 := by
  refine ⟨?_, by decide, ?_, by decide⟩ <;> decide

/-- The margin computation, as a plain minimum over nanosecond counts. -/
theorem get_server_update_interval_margin_eq (L mtw : Int) :
    get_server_update_interval_margin L (some mtw) =
      some (min (L * NS_IN_S / 2) mtw) := by
  simp only [get_server_update_interval_margin, avs_time_duration_div,
    avs_time_duration_from_scalar_s, avs_time_duration_less,
    ANJAY_UPDATE_INTERVAL_MARGIN_FACTOR, min_def]
  norm_num
  split_ifs <;> first | rfl | (simp only [Option.some.injEq]; omega)

/-- The scheduled delay, as a plain floor over nanosecond counts. -/
theorem schedule_next_update_delay_eq (rem m : Int) :
    schedule_next_update_delay (some rem) (some m) =
      some (if rem - m < NS_IN_S then NS_IN_S else rem - m) := by
  simp only [schedule_next_update_delay, avs_time_duration_diff,
    duration_seconds, ANJAY_MIN_UPDATE_INTERVAL_S,
    avs_time_duration_from_scalar_s, NS_IN_S, one_mul]
  split_ifs <;> first | rfl | (exfalso; omega)

/-- C1 (amended): for lifetime L > 0 the margin is
min(L/2, max_transmit_wait) — the lifetime divided once by
ANJAY_UPDATE_INTERVAL_MARGIN_FACTOR = 2 — so it never exceeds half the
lifetime; the scheduled delay is the remaining registration time minus
this margin, floored to a minimum of 1 second, and is therefore always
at least 1 second. -/
theorem update_delay_margin_correct (L mtw rem : Int) (_hL : 0 < L)
    (_hmtw : 0 ≤ mtw) :
    ∃ m : Int,
      get_server_update_interval_margin L (some mtw) = some m
      ∧ m = min (L * NS_IN_S / 2) mtw
      ∧ 2 * m ≤ L * NS_IN_S
      ∧ schedule_next_update_delay (some rem) (some m) =
          some (if rem - m < NS_IN_S then NS_IN_S else rem - m)
      ∧ (∀ d, schedule_next_update_delay (some rem) (some m) = some d →
          NS_IN_S ≤ d) := by
  refine ⟨min (L * NS_IN_S / 2) mtw,
    get_server_update_interval_margin_eq L mtw, rfl, ?_, ?_, ?_⟩
  · have h := min_le_left (L * NS_IN_S / 2) mtw
    simp only [NS_IN_S] at h ⊢
    omega
  · exact schedule_next_update_delay_eq rem (min (L * NS_IN_S / 2) mtw)
  · intro d hd
    rw [schedule_next_update_delay_eq] at hd
    simp only [Option.some.injEq] at hd
    subst hd
    split <;> omega

theorem update_delay_margin_correct_witness :
    (0 : Int) < 60 ∧ (0 : Int) ≤ 20 * NS_IN_S ∧
    ∃ m : Int,
      get_server_update_interval_margin 60 (some (20 * NS_IN_S)) = some m
      ∧ m = min (60 * NS_IN_S / 2) (20 * NS_IN_S)
      ∧ 2 * m ≤ 60 * NS_IN_S
      ∧ schedule_next_update_delay (some (60 * NS_IN_S)) (some m) =
          some (if 60 * NS_IN_S - m < NS_IN_S then NS_IN_S else 60 * NS_IN_S - m)
      ∧ (∀ d, schedule_next_update_delay (some (60 * NS_IN_S)) (some m) = some d →
          NS_IN_S ≤ d) :=
  ⟨by decide, by decide,
   update_delay_margin_correct 60 (20 * NS_IN_S) (60 * NS_IN_S)
     (by decide) (by decide)⟩

/-- Lemma: `strchr` finds the suffix starting at the first occurrence. -/
theorem strchr_eq_drop_indexOf (s : List Char) (c : Char) :
    strchr s c = if c ∈ s then some (s.drop (s.indexOf c)) else none := by
  induction s with
  | nil => rfl
  | cons a rest ih =>
      by_cases h : a = c
      · subst h
        simp [strchr, List.indexOf_cons_self]
      · simp only [strchr, if_neg h, ih, List.indexOf_cons_ne rest h,
          List.mem_cons]
        have hne : ¬ c = a := fun hca => h hca.symm
        by_cases hm : c ∈ rest <;> simp [hm, hne, List.drop_succ_cons]

/-- Lemma: `headD` after `drop` reads the element at the given index. -/
theorem drop_headD_eq_getElem (l : List Char) (n : Nat) (d : Char) :
    (l.drop n).headD d = (l[n]?).getD d := by
  induction l generalizing n with
  | nil => cases n <;> rfl
  | cons a t ih =>
      cases n with
      | zero => simp
      | succ m => simp [ih m]

/-- The designator-letter scan of `_anjay_get_connection_mode`, expressed
through the index of the first occurrence of the letter. -/
theorem connection_mode_scan_eq (s : List Char) (c : Char) :
    (match strchr s c with
     | none => AnjayServerConnectionMode.DISABLED
     | some suffix =>
         if char_after suffix = 'Q' then AnjayServerConnectionMode.QUEUE
         else AnjayServerConnectionMode.ONLINE) =
    (if c ∈ s then
       (if s[s.indexOf c + 1]? = some 'Q' then AnjayServerConnectionMode.QUEUE
        else AnjayServerConnectionMode.ONLINE)
     else AnjayServerConnectionMode.DISABLED) := by
  rw [strchr_eq_drop_indexOf]
  by_cases h : c ∈ s
  · simp only [h, if_true]
    have hca : char_after (s.drop (s.indexOf c)) =
        (s[s.indexOf c + 1]?).getD (Char.ofNat 0) := by
      rw [char_after, List.drop_drop, drop_headD_eq_getElem]
    rw [hca]
    have h0 : (Char.ofNat 0) ≠ 'Q' := by decide
    cases hE : s[s.indexOf c + 1]? with
    | none => simp [hE, h0]
    | some ch => simp [hE]
  · simp [h]

/-- C3 (amended): for every string and every transport, the connection
mode is QUEUE when the first occurrence of the transport's designator
letter ('U' for UDP, 'S' for SMS) is immediately followed by 'Q', ONLINE
when the letter occurs but its first occurrence is not followed by 'Q',
and DISABLED when the letter does not occur (the UNSET transport is
always DISABLED). -/
theorem connection_mode_first_occurrence (s : List Char) :
    (anjay_get_connection_mode s .UDP =
       if 'U' ∈ s then
         (if s[s.indexOf 'U' + 1]? = some 'Q' then .QUEUE else .ONLINE)
       else .DISABLED)
    ∧ (anjay_get_connection_mode s .SMS =
       if 'S' ∈ s then
         (if s[s.indexOf 'S' + 1]? = some 'Q' then .QUEUE else .ONLINE)
       else .DISABLED)
    ∧ anjay_get_connection_mode s .UNSET = .DISABLED :=
  ⟨connection_mode_scan_eq s 'U', connection_mode_scan_eq s 'S', rfl⟩

/-- C5: when the Update exchange is rejected with the needs-full-
registration indication, the outcome is NEEDS_REGISTRATION and the local
expire_time is immediately invalidated; when it fails with a network
error, the outcome is FAILED and the primary connection is suspended —
the only external call besides the exchange is the suspension, never the
full reconnect path. -/
theorem registration_update_reject_and_network_error
    (retval : UpdateExchangeStatus) (s : ServerInfo) :
    (retval = .rejected →
       (registration_update_with_ctx retval s).1 = .NEEDS_REGISTRATION
       ∧ (registration_update_with_ctx retval s).2.1.expire_time = none)
    ∧ (retval = .network_err →
       (registration_update_with_ctx retval s).1 = .FAILED
       ∧ (registration_update_with_ctx retval s).2.2 =
           [.updateExchange, .suspendConn s.primary_conn_type]
       ∧ DriverEffect.scheduleReconnect ∉ (registration_update_with_ctx retval s).2.2
       ∧ (registration_update_with_ctx retval s).2.1.online_socket
           s.primary_conn_type = none) := by
  constructor
  · rintro rfl
    exact ⟨rfl, rfl⟩
  · rintro rfl
    refine ⟨rfl, rfl, by simp [registration_update_with_ctx], ?_⟩
    simp [registration_update_with_ctx, anjay_connection_suspend]

theorem registration_update_reject_and_network_error_witness :
    ((registration_update_with_ctx .rejected
        ⟨.UDP, fun _ => some 1, some 5⟩).1 = .NEEDS_REGISTRATION
     ∧ (registration_update_with_ctx .rejected
        ⟨.UDP, fun _ => some 1, some 5⟩).2.1.expire_time = none)
    ∧ ((registration_update_with_ctx .network_err
        ⟨.UDP, fun _ => some 1, some 5⟩).1 = .FAILED
     ∧ (registration_update_with_ctx .network_err
        ⟨.UDP, fun _ => some 1, some 5⟩).2.2 =
          [.updateExchange, .suspendConn AnjayConnectionType.UDP]
     ∧ DriverEffect.scheduleReconnect ∉
         (registration_update_with_ctx .network_err
           ⟨.UDP, fun _ => some 1, some 5⟩).2.2
     ∧ (registration_update_with_ctx .network_err
        ⟨.UDP, fun _ => some 1, some 5⟩).2.1.online_socket
          AnjayConnectionType.UDP = none) :=
  ⟨(registration_update_reject_and_network_error .rejected
      ⟨.UDP, fun _ => some 1, some 5⟩).1 rfl,
   (registration_update_reject_and_network_error .network_err
      ⟨.UDP, fun _ => some 1, some 5⟩).2 rfl⟩

/-- C6: an Update attempt on a server with no valid primary connection is
classified NEEDS_REGISTRATION with the expire_time invalidated before any
exchange; the driver then attempts to select and connect a primary
transport, and when that connect fails the overall outcome is FAILED with
no Register exchange performed. -/
theorem ensure_valid_registration_connect_failure (needs_update : Bool)
    (update_status : UpdateExchangeStatus) (setup_state : ServerInfo)
    (register_status : RegisterExchangeStatus) (now : Int) (s : ServerInfo)
    (hinvalid : anjay_server_primary_connection_valid s = false) :
    ensure_valid_registration_classify needs_update update_status now s =
      (.NEEDS_REGISTRATION, { s with expire_time := none }, [])
    ∧ ensure_valid_registration_with_ctx needs_update update_status false
        setup_state register_status now s =
      (.FAILED, { s with expire_time := none }, [.setupPrimary]) := by
  have hclassify :
      ensure_valid_registration_classify needs_update update_status now s =
        (.NEEDS_REGISTRATION, { s with expire_time := none }, []) := by
    simp [ensure_valid_registration_classify, hinvalid]
  refine ⟨hclassify, ?_⟩
  have hinvalid2 :
      anjay_server_primary_connection_valid { s with expire_time := none } =
        false := hinvalid
  simp [ensure_valid_registration_with_ctx, hclassify, hinvalid2]

theorem ensure_valid_registration_connect_failure_witness :
    anjay_server_primary_connection_valid
        ⟨.UNSET, fun _ => none, some 5⟩ = false
    ∧ (ensure_valid_registration_classify true .ok 0
          ⟨.UNSET, fun _ => none, some 5⟩ =
        (.NEEDS_REGISTRATION,
         { (⟨.UNSET, fun _ => none, some 5⟩ : ServerInfo) with
             expire_time := none }, [])
      ∧ ensure_valid_registration_with_ctx true .ok false
          ⟨.UDP, fun _ => some 1, some 5⟩ .ok 0
          ⟨.UNSET, fun _ => none, some 5⟩ =
        (.FAILED,
         { (⟨.UNSET, fun _ => none, some 5⟩ : ServerInfo) with
             expire_time := none }, [.setupPrimary])) :=
  ⟨rfl,
   ensure_valid_registration_connect_failure true .ok
     ⟨.UDP, fun _ => some 1, some 5⟩ .ok 0
     ⟨.UNSET, fun _ => none, some 5⟩ rfl⟩

/-- C7: De-register with an unset primary transport, or with a stream
that cannot be acquired, returns 0 (a logged no-op, not an error) and
sends nothing; once the stream is acquired, the De-Register exchange runs
and the stream is released afterwards whether the exchange succeeded or
failed, with the exchange result returned unchanged. -/
theorem deregister_stream_handling (bind_ok : Bool) (dereg_retval : Int)
    (s : ServerInfo) :
    (s.primary_conn_type = .UNSET →
       anjay_server_deregister bind_ok dereg_retval s = (0, []))
    ∧ (s.primary_conn_type ≠ .UNSET → bind_ok = false →
       anjay_server_deregister bind_ok dereg_retval s = (0, [.bindStream]))
    ∧ (s.primary_conn_type ≠ .UNSET → bind_ok = true →
       anjay_server_deregister bind_ok dereg_retval s =
         (dereg_retval, [.bindStream, .sendDeregister, .releaseStream])) := by
  refine ⟨fun h => ?_, fun h hb => ?_, fun h hb => ?_⟩
  · simp [anjay_server_deregister, h]
  · simp [anjay_server_deregister, h, hb]
  · simp [anjay_server_deregister, h, hb]

theorem deregister_stream_handling_witness :
    anjay_server_deregister true (-1) ⟨.UNSET, fun _ => none, none⟩ = (0, [])
    ∧ anjay_server_deregister false (-1) ⟨.UDP, fun _ => some 1, none⟩ =
        (0, [.bindStream])
    ∧ anjay_server_deregister true (-1) ⟨.UDP, fun _ => some 1, none⟩ =
        ((-1 : Int), [.bindStream, .sendDeregister, .releaseStream]) :=
  ⟨(deregister_stream_handling true (-1) ⟨.UNSET, fun _ => none, none⟩).1 rfl,
   (deregister_stream_handling false (-1)
      ⟨.UDP, fun _ => some 1, none⟩).2.1 (by decide) rfl,
   (deregister_stream_handling true (-1)
      ⟨.UDP, fun _ => some 1, none⟩).2.2 (by decide) rfl⟩

/-- Lemma: `validate_instance` accepts exactly the instances with all mandatory
resources present, a positive Lifetime, a non-zero Default Max Period and
a valid Binding string. -/
theorem validate_instance_eq_zero_iff (it : server_instance) :
    validate_instance it = 0 ↔
      (it.has_ssid = true
       ∧ (∃ b, it.binding = some b ∧ anjay_binding_mode_valid b = true)
       ∧ it.has_lifetime = true
       ∧ it.has_notification_storing = true
       ∧ 0 < it.lifetime
       ∧ it.default_max_period ≠ 0) := by
  cases hb : it.binding with
  | none =>
      simp only [validate_instance, hb]
      split_ifs <;> simp_all
  | some b =>
      simp only [validate_instance, hb]
      split_ifs <;> simp_all

/-- The first validation loop reports 0 exactly when every instance
validates. -/
theorem serv_validate_collect_fst (l : List server_instance) :
    (serv_validate_collect_ssids l).1 = 0 ↔
      ∀ it ∈ l, validate_instance it = 0 := by
  induction l with
  | nil => simp [serv_validate_collect_ssids]
  | cons it rest ih =>
      by_cases h : validate_instance it = 0
      · simp [serv_validate_collect_ssids, h, ih]
      · simp [serv_validate_collect_ssids, h, ANJAY_ERR_BAD_REQUEST]

/-- When every instance validates, the collected SSID list is a
permutation of the instances' SSIDs. -/
theorem serv_validate_collect_snd_perm (l : List server_instance)
    (h : ∀ it ∈ l, validate_instance it = 0) :
    (serv_validate_collect_ssids l).2.Perm (l.map server_instance.ssid) := by
  induction l with
  | nil => simp [serv_validate_collect_ssids]
  | cons it rest ih =>
      have hit : validate_instance it = 0 := h it (List.mem_cons_self it rest)
      have ihr := ih (fun x hx => h x (List.mem_cons_of_mem it hx))
      simp only [serv_validate_collect_ssids, hit, ne_eq,
        not_true_eq_false, if_neg, List.map_cons, not_false_eq_true,
        ite_false, ite_true]
      exact (ihr.append_right [it.ssid]).trans
        (List.perm_append_singleton it.ssid (rest.map server_instance.ssid))

/-- On an ascending-sorted list, the adjacent-duplicate scan finds
nothing exactly when the list has no duplicates at all. -/
theorem sorted_has_adjacent_duplicate_iff (l : List Nat)
    (hs : l.Sorted (· ≤ ·)) :
    has_adjacent_duplicate l = false ↔ l.Nodup := by
  induction l with
  | nil => simp [has_adjacent_duplicate]
  | cons a t ih =>
      rw [List.sorted_cons] at hs
      obtain ⟨hab, hs'⟩ := hs
      cases t with
      | nil => simp [has_adjacent_duplicate]
      | cons b t2 =>
          have hbt := (List.sorted_cons.mp hs').1
          have iht := ih hs'
          simp only [has_adjacent_duplicate, Bool.or_eq_false_iff,
            decide_eq_false_iff_not, iht, List.nodup_cons, List.mem_cons]
          constructor
          · rintro ⟨hne, hnm, hnd⟩
            refine ⟨fun hmem => ?_, hnm, hnd⟩
            rcases hmem with h1 | h2
            · exact hne h1
            · have h3 : a ≤ b := hab b (List.mem_cons_self b t2)
              have h4 : b ≤ a := hbt a h2
              exact hne (le_antisymm h3 h4)
          · rintro ⟨hnm, hnm2, hnd⟩
            exact ⟨fun he => hnm (Or.inl he), hnm2, hnd⟩

/-- C8: Server object instance list validation succeeds exactly when
every instance carries the mandatory SSID, Binding, Lifetime and
Notification-Storing resources, a positive Lifetime, a non-zero Default
Max Period and a Binding string in the valid set, and no two instances
share an SSID; any violation is rejected with a validation error. -/
theorem serv_object_validate_iff (instances : List server_instance) :
    anjay_serv_object_validate instances = 0 ↔
      ((∀ it ∈ instances,
          it.has_ssid = true
          ∧ (∃ b, it.binding = some b ∧ anjay_binding_mode_valid b = true)
          ∧ it.has_lifetime = true
          ∧ it.has_notification_storing = true
          ∧ 0 < it.lifetime
          ∧ it.default_max_period ≠ 0)
       ∧ (instances.map server_instance.ssid).Nodup) := by
  have hcond : (∀ it ∈ instances,
      it.has_ssid = true
      ∧ (∃ b, it.binding = some b ∧ anjay_binding_mode_valid b = true)
      ∧ it.has_lifetime = true
      ∧ it.has_notification_storing = true
      ∧ 0 < it.lifetime
      ∧ it.default_max_period ≠ 0) ↔
      (∀ it ∈ instances, validate_instance it = 0) := by
    constructor
    · intro h it hit
      exact (validate_instance_eq_zero_iff it).mpr (h it hit)
    · intro h it hit
      exact (validate_instance_eq_zero_iff it).mp (h it hit)
  rw [hcond]
  cases instances with
  | nil => simp [anjay_serv_object_validate]
  | cons i0 rest =>
      by_cases hall : ∀ it ∈ i0 :: rest, validate_instance it = 0
      · have h1 : (serv_validate_collect_ssids (i0 :: rest)).1 = 0 :=
          (serv_validate_collect_fst _).mpr hall
        have hperm := serv_validate_collect_snd_perm _ hall
        have hsorted := List.sorted_insertionSort (· ≤ ·)
          (serv_validate_collect_ssids (i0 :: rest)).2
        have hpermsort :
            (List.insertionSort (· ≤ ·)
                (serv_validate_collect_ssids (i0 :: rest)).2).Perm
              ((i0 :: rest).map server_instance.ssid) :=
          (List.perm_insertionSort _ _).trans hperm
        have hdup := (sorted_has_adjacent_duplicate_iff _ hsorted).trans
          hpermsort.nodup_iff
        cases hadj : has_adjacent_duplicate (List.insertionSort (· ≤ ·)
            (serv_validate_collect_ssids (i0 :: rest)).2) with
        | false =>
            have hval : anjay_serv_object_validate (i0 :: rest) = 0 := by
              simp [anjay_serv_object_validate, h1, hadj]
            rw [hval]
            exact iff_of_true rfl ⟨hall, hdup.mp hadj⟩
        | true =>
            have hnodup : ¬ ((i0 :: rest).map server_instance.ssid).Nodup := by
              intro hnd
              exact Bool.noConfusion ((hadj ▸ hdup.mpr hnd : (true : Bool) = false))
            have hval : anjay_serv_object_validate (i0 :: rest) =
                ANJAY_ERR_BAD_REQUEST := by
              simp [anjay_serv_object_validate, h1, hadj]
            rw [hval]
            exact iff_of_false (by decide) (fun h => hnodup h.2)
      · have h1 : (serv_validate_collect_ssids (i0 :: rest)).1 ≠ 0 :=
          fun h => hall ((serv_validate_collect_fst _).mp h)
        have hval : anjay_serv_object_validate (i0 :: rest) =
            (serv_validate_collect_ssids (i0 :: rest)).1 := by
          simp [anjay_serv_object_validate, h1]
        rw [hval]
        exact iff_of_false h1 (fun h => hall h.1)

/-- The exclusive-ownership invariant of `next_action_handle`: the
server's pending jobs in the scheduler are exactly the one designated by
the handle, or none. -/
def sched_handle_inv (st : SchedState) : Prop :=
  st.pending = st.next_action_handle.elim [] (fun h => [h])

/-- One reschedule operation: either `_anjay_server_reschedule_update_job`
with its computed delay, or `reschedule_update_for_server`. -/
inductive RescheduleOp where
  | updateJob (delay : Option Int)
  | immediate
deriving DecidableEq, Repr

/-- Apply a sequence of reschedule operations. -/
def apply_reschedules (ops : List RescheduleOp) (st : SchedState) : SchedState :=
  ops.foldl
    (fun st op =>
      match op with
      | .updateJob delay => anjay_server_reschedule_update_job delay st
      | .immediate => reschedule_update_for_server st)
    st

/-- Each reschedule operation first cancels the pending job and then
schedules exactly one new one, so it preserves the handle invariant. -/
theorem reschedule_step_preserves_inv (st : SchedState)
    (hinv : sched_handle_inv st) (op : RescheduleOp) :
    sched_handle_inv (apply_reschedules [op] st) := by
  have hdel : (anjay_sched_del st).pending = [] := by
    cases hh : st.next_action_handle with
    | none =>
        rw [sched_handle_inv, hh] at hinv
        simp [anjay_sched_del, hh, hinv]
    | some h =>
        rw [sched_handle_inv, hh] at hinv
        simp [anjay_sched_del, hh, hinv]
  cases op with
  | updateJob delay =>
      simp [apply_reschedules, anjay_server_reschedule_update_job,
        servers_schedule_retryable, sched_handle_inv, hdel]
  | immediate =>
      simp [apply_reschedules, reschedule_update_for_server,
        servers_schedule_retryable, sched_handle_inv, hdel]

/-- C9: every reschedule operation cancels the previously pending job
before scheduling, so starting from a state satisfying the
handle-ownership invariant, any sequence of reschedule calls leaves at
most one pending scheduled Update job for the server. -/
theorem at_most_one_pending_update_job (ops : List RescheduleOp)
    (st : SchedState) (hinv : sched_handle_inv st) :
    sched_handle_inv (apply_reschedules ops st)
    ∧ (apply_reschedules ops st).pending.length ≤ 1 := by
  induction ops generalizing st with
  | nil =>
      refine ⟨hinv, ?_⟩
      rw [sched_handle_inv] at hinv
      simp only [apply_reschedules, List.foldl_nil]
      rw [hinv]
      cases st.next_action_handle <;> simp
  | cons op rest ih =>
      have hstep := reschedule_step_preserves_inv st hinv op
      have hrest := ih _ hstep
      have happ : apply_reschedules (op :: rest) st =
          apply_reschedules rest (apply_reschedules [op] st) := by
        simp [apply_reschedules]
      rw [happ]
      exact hrest

theorem at_most_one_pending_update_job_witness :
    sched_handle_inv ⟨[], none, 0⟩
    ∧ (sched_handle_inv (apply_reschedules
        [.immediate, .updateJob (some NS_IN_S), .immediate] ⟨[], none, 0⟩)
      ∧ (apply_reschedules
          [.immediate, .updateJob (some NS_IN_S), .immediate]
          ⟨[], none, 0⟩).pending.length ≤ 1) :=
  ⟨rfl, at_most_one_pending_update_job
    [.immediate, .updateJob (some NS_IN_S), .immediate] ⟨[], none, 0⟩ rfl⟩

/-- C10: the find-by-UDP-socket lookup returns a server only if that
server is active, its UDP connection is online and its socket is the
sought handle; an active server whose UDP socket exists but is offline
is never returned, and with no matching active server the result is the
not-found value. -/
theorem find_by_udp_socket_online_only (servers : List RegistryServer)
    (socket : Nat) :
    (∀ server, anjay_servers_find_by_udp_socket servers socket = some server →
       server ∈ servers
       ∧ server.active = true
       ∧ server.udp.online = true
       ∧ server.udp.socket = some socket)
    ∧ ((∀ server ∈ servers, server.active = true →
          anjay_connection_get_online_socket server.udp ≠ some socket) →
        anjay_servers_find_by_udp_socket servers socket = none) := by
  constructor
  · intro server hfind
    have hmem : server ∈ servers.filter (·.active) :=
      List.mem_of_find?_eq_some hfind
    have hactive : server.active = true := by
      have := List.of_mem_filter hmem
      simpa using this
    have hmem2 : server ∈ servers := List.mem_of_mem_filter hmem
    have hp := List.find?_some hfind
    have hsock : anjay_connection_get_online_socket server.udp = some socket := by
      simpa using hp
    rw [anjay_connection_get_online_socket] at hsock
    by_cases ho : server.udp.online
    · rw [if_pos ho] at hsock
      exact ⟨hmem2, hactive, ho, hsock⟩
    · rw [if_neg ho] at hsock
      exact absurd hsock (by simp)
  · intro hnone
    rw [anjay_servers_find_by_udp_socket, List.find?_eq_none]
    intro server hmem
    have hactive : server.active = true := by
      have := List.of_mem_filter hmem
      simpa using this
    have hmem2 : server ∈ servers := List.mem_of_mem_filter hmem
    simpa using hnone server hmem2 hactive

theorem find_by_udp_socket_online_only_witness :
    ((⟨true, ⟨some 7, true⟩⟩ : RegistryServer) ∈
        [(⟨true, ⟨some 7, true⟩⟩ : RegistryServer)]
     ∧ (⟨true, ⟨some 7, true⟩⟩ : RegistryServer).active = true
     ∧ (⟨true, ⟨some 7, true⟩⟩ : RegistryServer).udp.online = true
     ∧ (⟨true, ⟨some 7, true⟩⟩ : RegistryServer).udp.socket = some 7)
    ∧ anjay_servers_find_by_udp_socket
        [(⟨true, ⟨some 7, false⟩⟩ : RegistryServer)] 7 = none :=
  ⟨(find_by_udp_socket_online_only [⟨true, ⟨some 7, true⟩⟩] 7).1
     ⟨true, ⟨some 7, true⟩⟩ rfl,
   (find_by_udp_socket_online_only [⟨true, ⟨some 7, false⟩⟩] 7).2
     (by decide)⟩
